import Mathlib

/-!
Shallow embedding of the netcdf-rs classic-format decoder.

The decoder lives in src/reader.rs and works over a forward-only byte
source (std::io::Read).  We model the source as a Lean value of type
List Nat (the remaining bytes, each the value of one u8), and every
Rust function `fn f(reader, args) -> Result<T, NetCDFError>` as a Lean
function `f : args -> List Nat -> Except NetCDFError (T × List Nat)`
returning the decoded value together with the bytes left unread.
Rust's `reader.read_exact(&mut buf)` on a buffer of n bytes is modelled
by readExact n: it yields the first n bytes and fails with IOError
(std::io::ErrorKind::UnexpectedEof surfaces via NetCDFError::IOError)
when fewer than n bytes remain.  Rust loops `for _ in 0..k { ... }`
that push one decoded element per iteration and abort on the first
error are modelled by the structural recursion readListN.

Data types mirror src/netcdf.rs; names are kept.  Strings are kept as
their UTF-8 byte lists, and String::from_utf8 is modelled by the
validUtf8 check below (the exact validation that Rust's std performs).
Floats are kept as their raw big-endian bit patterns: the decoder only
ever moves float bytes, it never computes with them.
-/

/-- Signed reinterpretation of a w-bit big-endian unsigned value, as done
by i16::from_be_bytes / i32::from_be_bytes. -/
def toSigned (w : Nat) (n : Nat) : Int :=
  if n < 2 ^ (w - 1) then (n : Int) else (n : Int) - 2 ^ w

/-- Big-endian value of a byte list, as in u16/u32/u64::from_be_bytes. -/
def beVal (bs : List Nat) : Nat :=
  bs.foldl (fun acc b => acc * 256 + b) 0

/-- Rust i32 values (i16 also fits); kept as a name so the constructor
NetCDFValue.Int can mention the integer type. -/
abbrev RustInt := Int

inductive NetCDFVersion where
  | CDF01
  | CDF02
  /-- Modelled from the spec: the enum variant for the HDF5-based
  container magic is referenced by src/reader.rs but its declaration is
  not among the given sources; spec section 6 fixes its magic bytes. -/
  | HDF5
deriving DecidableEq

inductive NetCDFStreaming where
  | Streaming
  | Normal (n : Nat)
deriving DecidableEq

inductive NetCDFType where
  | NCByte
  | NCChar
  | NCShort
  | NCInt
  | NCFloat
  | NCDouble
deriving DecidableEq

inductive NetCDFValue where
  | Byte (b : Nat)
  | Char (c : Nat)
  | Short (v : RustInt)
  | Int (v : RustInt)
  | Float (bits : Nat)
  | Double (bits : Nat)
deriving DecidableEq

inductive NetCDFOffset where
  | Pos32 (n : Nat)
  | Pos64 (n : Nat)
deriving DecidableEq

inductive NetCDFError where
  | IOError
  | UnknownVersion (bs : List Nat)
  | FromUtf8 (bs : List Nat)
  | DimListTag (t : List Nat × List Nat)
  | AttrListTag (t : List Nat × List Nat)
  | NCType (bs : List Nat)
  /-- Modelled from the spec: the unsupported-HDF5-variant error is
  produced by src/reader.rs (read_header) but its declaration is not
  among the given sources. -/
  | HDF5NotSupportetYet
  /-- Modelled from the spec: the defensive unresolved-offset-version
  error is produced by src/reader.rs (read_offset) but its declaration
  is not among the given sources. -/
  | UnknownOffsetVersion
deriving DecidableEq

structure NetCDFDimension where
  name : List Nat
  length : Nat
deriving DecidableEq

structure NetCDFAttribute where
  name : List Nat
  values : List NetCDFValue
deriving DecidableEq

structure NetCDFVariable where
  name : List Nat
  dimid : List Nat
  att_list : List NetCDFAttribute
  nc_type : NetCDFType
  vsize : Nat
  offset : NetCDFOffset
deriving DecidableEq

structure NetCDFHeader where
  version : NetCDFVersion
  numrecs : NetCDFStreaming
  dim_list : List NetCDFDimension
  att_list : List NetCDFAttribute
  var_list : List NetCDFVariable
deriving DecidableEq

structure NetCDFVarData where
  values : List NetCDFValue
deriving DecidableEq

structure NetCDFVarSlab where
  varslab : List NetCDFValue
deriving DecidableEq

structure NetCDFRecord where
  record : List NetCDFVarSlab
deriving DecidableEq

structure NetCDFData where
  non_recs : List NetCDFVarData
  recs : List NetCDFRecord
deriving DecidableEq

structure NetCDF where
  header : NetCDFHeader
  data : NetCDFData
deriving DecidableEq

def VERSION1 : List Nat := [0x43, 0x44, 0x46, 0x01]

def VERSION2 : List Nat := [0x43, 0x44, 0x46, 0x02]

/-- Modelled from the spec: the constant for the HDF5-family magic is
matched by src/reader.rs (read_version) but its declaration is not among
the given sources; spec section 6 gives the bytes 89 48 44 46. -/
def VERSION4 : List Nat := [0x89, 0x48, 0x44, 0x46]

def STREAMING : List Nat := [0xff, 0xff, 0xff, 0xff]

def ZERO : List Nat := [0x00, 0x00, 0x00, 0x00]

def NC_DIMENSION : List Nat := [0x00, 0x00, 0x00, 0x0a]

def NC_VARIABLE : List Nat := [0x00, 0x00, 0x00, 0x0b]

def NC_ATTRIBUTE : List Nat := [0x00, 0x00, 0x00, 0x0c]

def NC_BYTE : List Nat := [0x00, 0x00, 0x00, 0x01]

def NC_CHAR : List Nat := [0x00, 0x00, 0x00, 0x02]

def NC_SHORT : List Nat := [0x00, 0x00, 0x00, 0x03]

def NC_INT : List Nat := [0x00, 0x00, 0x00, 0x04]

def NC_FLOAT : List Nat := [0x00, 0x00, 0x00, 0x05]

def NC_DOUBLE : List Nat := [0x00, 0x00, 0x00, 0x06]

/-- Model of reader.read_exact on an n-byte buffer: the first n bytes
and the rest, or IOError when the source is shorter than n. -/
def readExact (n : Nat) (s : List Nat) : Except NetCDFError (List Nat × List Nat) :=
  if n ≤ s.length then .ok (s.take n, s.drop n) else .error .IOError

/-- Model of a Rust loop running k times, decoding one element per
iteration with read1 and returning on the first error. -/
def readListN {α : Type} (read1 : List Nat → Except NetCDFError (α × List Nat)) :
    Nat → List Nat → Except NetCDFError (List α × List Nat)
  | 0, s => .ok ([], s)
  | Nat.succ k, s =>
    match read1 s with
    | .error e => .error e
    | .ok (a, s1) =>
      match readListN read1 k s1 with
      | .error e => .error e
      | .ok (items, s2) => .ok (a :: items, s2)

/-- Whether b is a UTF-8 continuation byte (0x80..0xBF). -/
def contByte (b : Nat) : Bool :=
  decide (0x80 ≤ b ∧ b ≤ 0xbf)

/-- The UTF-8 validity check performed by Rust's String::from_utf8:
leading byte 00..7F stands alone; C2..DF takes one continuation byte;
E0/E1..EC/ED/EE..EF take two with the E0 and ED special ranges that
exclude overlong forms and surrogates; F0/F1..F3/F4 take three with the
F0 and F4 special ranges that exclude overlong forms and values past
U+10FFFF; anything else (continuation byte first, C0/C1, F5..FF) is
invalid. -/
def validUtf8 : List Nat → Bool
  | [] => true
  | b :: rest =>
    if b < 0x80 then validUtf8 rest
    else if b < 0xc2 then false
    else if b < 0xe0 then
      match rest with
      | c1 :: r => contByte c1 && validUtf8 r
      | [] => false
    else if b < 0xf0 then
      match rest with
      | c1 :: c2 :: r =>
        (if b = 0xe0 then decide (0xa0 ≤ c1 ∧ c1 ≤ 0xbf)
         else if b = 0xed then decide (0x80 ≤ c1 ∧ c1 ≤ 0x9f)
         else contByte c1) && contByte c2 && validUtf8 r
      | _ => false
    else if b < 0xf5 then
      match rest with
      | c1 :: c2 :: c3 :: r =>
        (if b = 0xf0 then decide (0x90 ≤ c1 ∧ c1 ≤ 0xbf)
         else if b = 0xf4 then decide (0x80 ≤ c1 ∧ c1 ≤ 0x8f)
         else contByte c1) && contByte c2 && contByte c3 && validUtf8 r
      | _ => false
    else false

/-- reader.rs read_version: one 4-byte magic, matched against the three
known markers. -/
def read_version (s : List Nat) : Except NetCDFError (NetCDFVersion × List Nat) :=
  match readExact 4 s with
  | .error e => .error e
  | .ok (buffer, s1) =>
    if buffer = VERSION1 then .ok (.CDF01, s1)
    else if buffer = VERSION2 then .ok (.CDF02, s1)
    else if buffer = VERSION4 then .ok (.HDF5, s1)
    else .error (.UnknownVersion buffer)

/-- reader.rs read_numrecs: all-ones sentinel means Streaming, any other
4 bytes are the big-endian record count. -/
def read_numrecs (s : List Nat) : Except NetCDFError (NetCDFStreaming × List Nat) :=
  match readExact 4 s with
  | .error e => .error e
  | .ok (buffer, s1) =>
    if buffer = STREAMING then .ok (.Streaming, s1)
    else .ok (.Normal (beVal buffer), s1)

/-- reader.rs read_name: 4-byte big-endian length, then
reader.take(length).read_to_end, which delivers min(length, remaining)
bytes and never fails on a short source, then String::from_utf8. -/
def read_name (s : List Nat) : Except NetCDFError (List Nat × List Nat) :=
  match readExact 4 s with
  | .error e => .error e
  | .ok (buffer1, s1) =>
    let name_length := beVal buffer1
    let buffer2 := s1.take name_length
    let s2 := s1.drop name_length
    if validUtf8 buffer2 then .ok (buffer2, s2)
    else .error (.FromUtf8 buffer2)

/-- reader.rs read_number_of_elements: one big-endian u32. -/
def read_number_of_elements (s : List Nat) : Except NetCDFError (Nat × List Nat) :=
  match readExact 4 s with
  | .error e => .error e
  | .ok (buffer, s1) => .ok (beVal buffer, s1)

/-- reader.rs read_nc_type: a 4-byte tag matched against the six known
element types. -/
def read_nc_type (s : List Nat) : Except NetCDFError (NetCDFType × List Nat) :=
  match readExact 4 s with
  | .error e => .error e
  | .ok (buffer, s1) =>
    if buffer = NC_BYTE then .ok (.NCByte, s1)
    else if buffer = NC_CHAR then .ok (.NCChar, s1)
    else if buffer = NC_SHORT then .ok (.NCShort, s1)
    else if buffer = NC_INT then .ok (.NCInt, s1)
    else if buffer = NC_FLOAT then .ok (.NCFloat, s1)
    else if buffer = NC_DOUBLE then .ok (.NCDouble, s1)
    else .error (.NCType buffer)

/-- Loop body of read_values for NCByte: one 1-byte read_exact, pushed
as a Byte value. -/
def readByteVal (t : List Nat) : Except NetCDFError (NetCDFValue × List Nat) :=
  match readExact 1 t with
  | .error e => .error e
  | .ok (b, t1) => .ok (NetCDFValue.Byte (beVal b), t1)

/-- Loop body of read_values for NCChar: one 1-byte read_exact, pushed
as a Char value (the Rust cast u8 as char keeps the code point). -/
def readCharVal (t : List Nat) : Except NetCDFError (NetCDFValue × List Nat) :=
  match readExact 1 t with
  | .error e => .error e
  | .ok (b, t1) => .ok (NetCDFValue.Char (beVal b), t1)

/-- Loop body of read_values for NCShort: one 2-byte read_exact through
i16::from_be_bytes. -/
def readShortVal (t : List Nat) : Except NetCDFError (NetCDFValue × List Nat) :=
  match readExact 2 t with
  | .error e => .error e
  | .ok (b, t1) => .ok (NetCDFValue.Short (toSigned 16 (beVal b)), t1)

/-- Loop body of read_values for NCInt: one 4-byte read_exact through
i32::from_be_bytes. -/
def readIntVal (t : List Nat) : Except NetCDFError (NetCDFValue × List Nat) :=
  match readExact 4 t with
  | .error e => .error e
  | .ok (b, t1) => .ok (NetCDFValue.Int (toSigned 32 (beVal b)), t1)

/-- Loop body of read_values for NCFloat: one 4-byte read_exact, the
f32 kept as its raw bit pattern. -/
def readFloatVal (t : List Nat) : Except NetCDFError (NetCDFValue × List Nat) :=
  match readExact 4 t with
  | .error e => .error e
  | .ok (b, t1) => .ok (NetCDFValue.Float (beVal b), t1)

/-- Loop body of read_values for NCDouble: one 8-byte read_exact, the
f64 kept as its raw bit pattern. -/
def readDoubleVal (t : List Nat) : Except NetCDFError (NetCDFValue × List Nat) :=
  match readExact 8 t with
  | .error e => .error e
  | .ok (b, t1) => .ok (NetCDFValue.Double (beVal b), t1)

/-- reader.rs read_values: nvals elements of the given type, then the
type's padding behaviour.  Byte and Char compute padding = nvals % 4 and
read that many extra bytes (a loop of 1-byte read_exact calls, modelled
as one readExact of the same total).  Short computes
padding = (nvals * 2) % 4 (the u32 multiplication wraps at 2^32, which
does not change the value mod 4) and reads 2 extra bytes exactly when
padding = 2.  Int, Float and Double read no padding. -/
def read_values (nc_type : NetCDFType) (nvals : Nat) (s : List Nat) :
    Except NetCDFError (List NetCDFValue × List Nat) :=
  match nc_type with
  | .NCByte =>
    let size_in_bytes := nvals
    let padding := size_in_bytes % 4
    match readListN readByteVal nvals s with
    | .error e => .error e
    | .ok (vals, s1) =>
      match readExact padding s1 with
      | .error e => .error e
      | .ok (_, s2) => .ok (vals, s2)
  | .NCChar =>
    let size_in_bytes := nvals
    let padding := size_in_bytes % 4
    match readListN readCharVal nvals s with
    | .error e => .error e
    | .ok (vals, s1) =>
      match readExact padding s1 with
      | .error e => .error e
      | .ok (_, s2) => .ok (vals, s2)
  | .NCShort =>
    let size_in_bytes := nvals * 2 % 2 ^ 32
    let padding := size_in_bytes % 4
    match readListN readShortVal nvals s with
    | .error e => .error e
    | .ok (vals, s1) =>
      if padding = 2 then
        match readExact 2 s1 with
        | .error e => .error e
        | .ok (_, s2) => .ok (vals, s2)
      else .ok (vals, s1)
  | .NCInt => readListN readIntVal nvals s
  | .NCFloat => readListN readFloatVal nvals s
  | .NCDouble => readListN readDoubleVal nvals s

/-- reader.rs read_dimension: name then 4-byte length. -/
def read_dimension (s : List Nat) : Except NetCDFError (NetCDFDimension × List Nat) :=
  match read_name s with
  | .error e => .error e
  | .ok (name, s1) =>
    match read_number_of_elements s1 with
    | .error e => .error e
    | .ok (length, s2) => .ok (⟨name, length⟩, s2)

/-- reader.rs read_attribute: name, element type, nvals, value run. -/
def read_attribute (s : List Nat) : Except NetCDFError (NetCDFAttribute × List Nat) :=
  match read_name s with
  | .error e => .error e
  | .ok (name, s1) =>
    match read_nc_type s1 with
    | .error e => .error e
    | .ok (nc_type, s2) =>
      match read_number_of_elements s2 with
      | .error e => .error e
      | .ok (nvals, s3) =>
        match read_values nc_type nvals s3 with
        | .error e => .error e
        | .ok (values, s4) => .ok (⟨name, values⟩, s4)

/-- reader.rs read_att_list: two 4-byte tags; both zero means the empty
list, NC_ATTRIBUTE means a big-endian count then that many attributes,
anything else is AttrListTag with both raw tags. -/
def read_att_list (s : List Nat) : Except NetCDFError (List NetCDFAttribute × List Nat) :=
  match readExact 4 s with
  | .error e => .error e
  | .ok (buffer1, s1) =>
    match readExact 4 s1 with
    | .error e => .error e
    | .ok (buffer2, s2) =>
      if buffer1 = ZERO ∧ buffer2 = ZERO then .ok ([], s2)
      else if buffer1 = NC_ATTRIBUTE then readListN read_attribute (beVal buffer2) s2
      else .error (.AttrListTag (buffer1, buffer2))

/-- reader.rs read_dim_list: same tag pattern with NC_DIMENSION and the
DimListTag error. -/
def read_dim_list (s : List Nat) : Except NetCDFError (List NetCDFDimension × List Nat) :=
  match readExact 4 s with
  | .error e => .error e
  | .ok (buffer1, s1) =>
    match readExact 4 s1 with
    | .error e => .error e
    | .ok (buffer2, s2) =>
      if buffer1 = ZERO ∧ buffer2 = ZERO then .ok ([], s2)
      else if buffer1 = NC_DIMENSION then readListN read_dimension (beVal buffer2) s2
      else .error (.DimListTag (buffer1, buffer2))

/-- Loop body of read_dimension_ids: one 4-byte big-endian id. -/
def readDimIdVal (t : List Nat) : Except NetCDFError (Nat × List Nat) :=
  match readExact 4 t with
  | .error e => .error e
  | .ok (b, t1) => .ok (beVal b, t1)

/-- reader.rs read_dimension_ids: a 4-byte count then that many 4-byte
big-endian ids. -/
def read_dimension_ids (s : List Nat) : Except NetCDFError (List Nat × List Nat) :=
  match read_number_of_elements s with
  | .error e => .error e
  | .ok (nelems, s1) =>
    readListN readDimIdVal nelems s1

/-- reader.rs read_offset: 4 bytes under CDF01, 8 bytes under CDF02, and
the defensive UnknownOffsetVersion error for any other version value. -/
def read_offset (version : NetCDFVersion) (s : List Nat) :
    Except NetCDFError (NetCDFOffset × List Nat) :=
  match version with
  | .CDF01 =>
    match readExact 4 s with
    | .error e => .error e
    | .ok (buffer, s1) => .ok (.Pos32 (beVal buffer), s1)
  | .CDF02 =>
    match readExact 8 s with
    | .error e => .error e
    | .ok (buffer, s1) => .ok (.Pos64 (beVal buffer), s1)
  | _ => .error .UnknownOffsetVersion

/-- reader.rs read_variable: name, dimension ids, nested attribute list,
element type, vsize, then the version-dependent offset. -/
def read_variable (version : NetCDFVersion) (s : List Nat) :
    Except NetCDFError (NetCDFVariable × List Nat) :=
  match read_name s with
  | .error e => .error e
  | .ok (name, s1) =>
    match read_dimension_ids s1 with
    | .error e => .error e
    | .ok (dimid, s2) =>
      match read_att_list s2 with
      | .error e => .error e
      | .ok (att_list, s3) =>
        match read_nc_type s3 with
        | .error e => .error e
        | .ok (nc_type, s4) =>
          match read_number_of_elements s4 with
          | .error e => .error e
          | .ok (vsize, s5) =>
            match read_offset version s5 with
            | .error e => .error e
            | .ok (offset, s6) => .ok (⟨name, dimid, att_list, nc_type, vsize, offset⟩, s6)

/-- reader.rs read_var_list: same tag pattern with NC_VARIABLE; note the
mismatch arm reuses the AttrListTag error. -/
def read_var_list (version : NetCDFVersion) (s : List Nat) :
    Except NetCDFError (List NetCDFVariable × List Nat) :=
  match readExact 4 s with
  | .error e => .error e
  | .ok (buffer1, s1) =>
    match readExact 4 s1 with
    | .error e => .error e
    | .ok (buffer2, s2) =>
      if buffer1 = ZERO ∧ buffer2 = ZERO then .ok ([], s2)
      else if buffer1 = NC_VARIABLE then readListN (read_variable version) (beVal buffer2) s2
      else .error (.AttrListTag (buffer1, buffer2))

/-- reader.rs read_header: version, then under HDF5 the unsupported
error, else numrecs and the three lists. -/
def read_header (s : List Nat) : Except NetCDFError (NetCDFHeader × List Nat) :=
  match read_version s with
  | .error e => .error e
  | .ok (version, s1) =>
    match version with
    | .HDF5 => .error .HDF5NotSupportetYet
    | v =>
      match read_numrecs s1 with
      | .error e => .error e
      | .ok (numrecs, s2) =>
        match read_dim_list s2 with
        | .error e => .error e
        | .ok (dim_list, s3) =>
          match read_att_list s3 with
          | .error e => .error e
          | .ok (att_list, s4) =>
            match read_var_list v s4 with
            | .error e => .error e
            | .ok (var_list, s5) => .ok (⟨v, numrecs, dim_list, att_list, var_list⟩, s5)

/-- reader.rs read_non_records: returns an empty vector without reading. -/
def read_non_records (s : List Nat) : Except NetCDFError (List NetCDFVarData × List Nat) :=
  .ok ([], s)

/-- reader.rs read_records: returns an empty vector without reading. -/
def read_records (s : List Nat) : Except NetCDFError (List NetCDFRecord × List Nat) :=
  .ok ([], s)

/-- reader.rs read_data: non-record data then record data (the header
argument is accepted and unused, as in the source). -/
def read_data (header : NetCDFHeader) (s : List Nat) :
    Except NetCDFError (NetCDFData × List Nat) :=
  match read_non_records s with
  | .error e => .error e
  | .ok (non_recs, s1) =>
    match read_records s1 with
    | .error e => .error e
    | .ok (recs, s2) => .ok (⟨non_recs, recs⟩, s2)

/-- reader.rs load_reader: header then data section. -/
def load_reader (s : List Nat) : Except NetCDFError NetCDF :=
  match read_header s with
  | .error e => .error e
  | .ok (header, s1) =>
    match read_data header s1 with
    | .error e => .error e
    | .ok (data, _) => .ok ⟨header, data⟩

/-- A minimal classic file: CDF-1 magic, numrecs 0, and three empty
lists (each signalled by two zero tags). -/
def emptyFile : List Nat :=
  VERSION1 ++ ([0, 0, 0, 0] ++ (ZERO ++ (ZERO ++ (ZERO ++ (ZERO ++ (ZERO ++ ZERO))))))

/-- A CDF-1 file whose header declares one scalar (hence non-record)
NCByte variable named x with vsize 4 and offset 40, followed by 4 bytes
of would-be variable data. -/
def oneVarFile : List Nat :=
  VERSION1 ++ ([0, 0, 0, 0] ++ (ZERO ++ (ZERO ++ (ZERO ++ (ZERO ++
  (NC_VARIABLE ++ ([0, 0, 0, 1] ++
  ([0, 0, 0, 1, 120] ++ ([0, 0, 0, 0] ++ (ZERO ++ (ZERO ++
  (NC_BYTE ++ ([0, 0, 0, 4] ++ ([0, 0, 0, 40] ++ [9, 9, 9, 9]))))))))))))))

/-! ## Basic facts about the byte-source primitives -/

theorem readExact_of_append (n : Nat) (p s : List Nat) (h : p.length = n) :
    readExact n (p ++ s) = .ok (p, s) := by
  subst h
  unfold readExact
  rw [if_pos (by simp)]
  simp

theorem readExact_err {n : Nat} {s : List Nat} {e : NetCDFError}
    (h : readExact n s = .error e) : e = .IOError := by
  unfold readExact at h
  split at h
  · cases h
  · cases h; rfl

theorem readListN_length {α : Type} (r : List Nat → Except NetCDFError (α × List Nat)) :
    ∀ (n : Nat) (s l s2), readListN r n s = .ok (l, s2) → l.length = n := by
  intro n
  induction n with
  | zero =>
    intro s l s2 h
    unfold readListN at h
    cases h
    rfl
  | succ k ih =>
    intro s l s2 h
    unfold readListN at h
    split at h
    · cases h
    · split at h
      · cases h
      · cases h
        rename_i a s1 heq mval s3 heq2
        simp [ih s1 s3 s2 heq2]

theorem readListN_mem {α : Type} (r : List Nat → Except NetCDFError (α × List Nat))
    (P : α → Prop) (hr : ∀ t a t2, r t = .ok (a, t2) → P a) :
    ∀ (n : Nat) (s l s2), readListN r n s = .ok (l, s2) → ∀ a ∈ l, P a := by
  intro n
  induction n with
  | zero =>
    intro s l s2 h
    unfold readListN at h
    cases h
    intro a ha
    cases ha
  | succ k ih =>
    intro s l s2 h
    unfold readListN at h
    split at h
    · cases h
    · split at h
      · cases h
      · cases h
        rename_i a s1 heq mval s3 heq2
        intro x hx
        cases hx with
        | head => exact hr _ _ _ heq
        | tail _ hmem => exact ih s1 s3 s2 heq2 x hmem

theorem readListN_no_err {α : Type} (r : List Nat → Except NetCDFError (α × List Nat))
    (e : NetCDFError) (hr : ∀ t, r t ≠ .error e) :
    ∀ (n : Nat) (s : List Nat), readListN r n s ≠ .error e := by
  intro n
  induction n with
  | zero =>
    intro s h
    unfold readListN at h
    cases h
  | succ k ih =>
    intro s h
    unfold readListN at h
    split at h
    · rename_i heq
      cases h
      exact hr _ heq
    · split at h
      · rename_i heq2
        cases h
        exact ih _ heq2
      · cases h

/-! ## Characterizations of the list decoders -/

theorem read_dim_list_count (cnt rest : List Nat) (l : List NetCDFDimension)
    (s2 : List Nat) (hc : cnt.length = 4)
    (h : read_dim_list (NC_DIMENSION ++ (cnt ++ rest)) = .ok (l, s2)) :
    l.length = beVal cnt := by
  unfold read_dim_list at h
  rw [readExact_of_append 4 NC_DIMENSION (cnt ++ rest) rfl] at h
  simp only [readExact_of_append 4 cnt rest hc, if_true] at h
  exact readListN_length read_dimension (beVal cnt) rest l s2 h

theorem read_dim_list_empty (rest : List Nat) :
    read_dim_list (ZERO ++ (ZERO ++ rest)) = .ok ([], rest) := by
  unfold read_dim_list
  rw [readExact_of_append 4 ZERO (ZERO ++ rest) rfl]
  simp only [readExact_of_append 4 ZERO rest rfl, and_self, if_true]

theorem read_att_list_count (cnt rest : List Nat) (l : List NetCDFAttribute)
    (s2 : List Nat) (hc : cnt.length = 4)
    (h : read_att_list (NC_ATTRIBUTE ++ (cnt ++ rest)) = .ok (l, s2)) :
    l.length = beVal cnt := by
  unfold read_att_list at h
  rw [readExact_of_append 4 NC_ATTRIBUTE (cnt ++ rest) rfl] at h
  simp only [readExact_of_append 4 cnt rest hc, if_true] at h
  exact readListN_length read_attribute (beVal cnt) rest l s2 h

theorem read_att_list_empty (rest : List Nat) :
    read_att_list (ZERO ++ (ZERO ++ rest)) = .ok ([], rest) := by
  unfold read_att_list
  rw [readExact_of_append 4 ZERO (ZERO ++ rest) rfl]
  simp only [readExact_of_append 4 ZERO rest rfl, and_self, if_true]

theorem read_var_list_count (ver : NetCDFVersion) (cnt rest : List Nat)
    (l : List NetCDFVariable) (s2 : List Nat) (hc : cnt.length = 4)
    (h : read_var_list ver (NC_VARIABLE ++ (cnt ++ rest)) = .ok (l, s2)) :
    l.length = beVal cnt := by
  unfold read_var_list at h
  rw [readExact_of_append 4 NC_VARIABLE (cnt ++ rest) rfl] at h
  simp only [readExact_of_append 4 cnt rest hc, if_true] at h
  exact readListN_length (read_variable ver) (beVal cnt) rest l s2 h

theorem read_var_list_empty (ver : NetCDFVersion) (rest : List Nat) :
    read_var_list ver (ZERO ++ (ZERO ++ rest)) = .ok ([], rest) := by
  unfold read_var_list
  rw [readExact_of_append 4 ZERO (ZERO ++ rest) rfl]
  simp only [readExact_of_append 4 ZERO rest rfl, and_self, if_true]

theorem read_dim_list_mismatch (t1 t2 rest : List Nat) (h1 : t1.length = 4)
    (h2 : t2.length = 4) (hz : ¬(t1 = ZERO ∧ t2 = ZERO)) (hm : t1 ≠ NC_DIMENSION) :
    read_dim_list (t1 ++ (t2 ++ rest)) = .error (.DimListTag (t1, t2)) := by
  unfold read_dim_list
  rw [readExact_of_append 4 t1 (t2 ++ rest) h1]
  simp only [readExact_of_append 4 t2 rest h2]
  rw [if_neg hz, if_neg hm]

theorem read_att_list_mismatch (t1 t2 rest : List Nat) (h1 : t1.length = 4)
    (h2 : t2.length = 4) (hz : ¬(t1 = ZERO ∧ t2 = ZERO)) (hm : t1 ≠ NC_ATTRIBUTE) :
    read_att_list (t1 ++ (t2 ++ rest)) = .error (.AttrListTag (t1, t2)) := by
  unfold read_att_list
  rw [readExact_of_append 4 t1 (t2 ++ rest) h1]
  simp only [readExact_of_append 4 t2 rest h2]
  rw [if_neg hz, if_neg hm]

theorem read_var_list_mismatch (ver : NetCDFVersion) (t1 t2 rest : List Nat)
    (h1 : t1.length = 4) (h2 : t2.length = 4) (hz : ¬(t1 = ZERO ∧ t2 = ZERO))
    (hm : t1 ≠ NC_VARIABLE) :
    read_var_list ver (t1 ++ (t2 ++ rest)) = .error (.AttrListTag (t1, t2)) := by
  unfold read_var_list
  rw [readExact_of_append 4 t1 (t2 ++ rest) h1]
  simp only [readExact_of_append 4 t2 rest h2]
  rw [if_neg hz, if_neg hm]

/-! ## Offset widths -/

theorem read_offset_cdf01 (s : List Nat) (o : NetCDFOffset) (s1 : List Nat)
    (h : read_offset .CDF01 s = .ok (o, s1)) : ∃ n, o = .Pos32 n := by
  simp only [read_offset] at h
  cases hex : readExact 4 s with
  | error e =>
    rw [hex] at h
    cases h
  | ok p =>
    obtain ⟨b, t⟩ := p
    rw [hex] at h
    cases h
    exact ⟨beVal b, rfl⟩

theorem read_offset_cdf02 (s : List Nat) (o : NetCDFOffset) (s1 : List Nat)
    (h : read_offset .CDF02 s = .ok (o, s1)) : ∃ n, o = .Pos64 n := by
  simp only [read_offset] at h
  cases hex : readExact 8 s with
  | error e =>
    rw [hex] at h
    cases h
  | ok p =>
    obtain ⟨b, t⟩ := p
    rw [hex] at h
    cases h
    exact ⟨beVal b, rfl⟩

theorem read_variable_offset32 (s : List Nat) (v : NetCDFVariable) (s2 : List Nat)
    (h : read_variable .CDF01 s = .ok (v, s2)) : ∃ n, v.offset = .Pos32 n := by
  unfold read_variable at h
  cases h1 : read_name s with
  | error e => rw [h1] at h; cases h
  | ok p1 =>
    obtain ⟨name, t1⟩ := p1
    simp only [h1] at h
    cases h2 : read_dimension_ids t1 with
    | error e => rw [h2] at h; cases h
    | ok p2 =>
      obtain ⟨dimid, t2⟩ := p2
      simp only [h2] at h
      cases h3 : read_att_list t2 with
      | error e => rw [h3] at h; cases h
      | ok p3 =>
        obtain ⟨atts, t3⟩ := p3
        simp only [h3] at h
        cases h4 : read_nc_type t3 with
        | error e => rw [h4] at h; cases h
        | ok p4 =>
          obtain ⟨ty, t4⟩ := p4
          simp only [h4] at h
          cases h5 : read_number_of_elements t4 with
          | error e => rw [h5] at h; cases h
          | ok p5 =>
            obtain ⟨vs, t5⟩ := p5
            simp only [h5] at h
            cases h6 : read_offset .CDF01 t5 with
            | error e => rw [h6] at h; cases h
            | ok p6 =>
              obtain ⟨off, t6⟩ := p6
              simp only [h6] at h
              cases h
              exact read_offset_cdf01 t5 off _ h6

theorem read_variable_offset64 (s : List Nat) (v : NetCDFVariable) (s2 : List Nat)
    (h : read_variable .CDF02 s = .ok (v, s2)) : ∃ n, v.offset = .Pos64 n := by
  unfold read_variable at h
  cases h1 : read_name s with
  | error e => rw [h1] at h; cases h
  | ok p1 =>
    obtain ⟨name, t1⟩ := p1
    simp only [h1] at h
    cases h2 : read_dimension_ids t1 with
    | error e => rw [h2] at h; cases h
    | ok p2 =>
      obtain ⟨dimid, t2⟩ := p2
      simp only [h2] at h
      cases h3 : read_att_list t2 with
      | error e => rw [h3] at h; cases h
      | ok p3 =>
        obtain ⟨atts, t3⟩ := p3
        simp only [h3] at h
        cases h4 : read_nc_type t3 with
        | error e => rw [h4] at h; cases h
        | ok p4 =>
          obtain ⟨ty, t4⟩ := p4
          simp only [h4] at h
          cases h5 : read_number_of_elements t4 with
          | error e => rw [h5] at h; cases h
          | ok p5 =>
            obtain ⟨vs, t5⟩ := p5
            simp only [h5] at h
            cases h6 : read_offset .CDF02 t5 with
            | error e => rw [h6] at h; cases h
            | ok p6 =>
              obtain ⟨off, t6⟩ := p6
              simp only [h6] at h
              cases h
              exact read_offset_cdf02 t5 off _ h6

theorem read_var_list_offsets32 (s : List Nat) (l : List NetCDFVariable) (s2 : List Nat)
    (h : read_var_list .CDF01 s = .ok (l, s2)) : ∀ v ∈ l, ∃ n, v.offset = .Pos32 n := by
  unfold read_var_list at h
  cases hex : readExact 4 s with
  | error e => rw [hex] at h; cases h
  | ok p1 =>
    obtain ⟨b1, s1⟩ := p1
    simp only [hex] at h
    cases hex2 : readExact 4 s1 with
    | error e => rw [hex2] at h; cases h
    | ok p2 =>
      obtain ⟨b2, t2⟩ := p2
      simp only [hex2] at h
      split at h
      · cases h
        intro v hv
        cases hv
      · split at h
        · exact readListN_mem (read_variable .CDF01) _
            (fun t a t2 ht => read_variable_offset32 t a t2 ht) (beVal b2) t2 l s2 h
        · cases h

theorem read_var_list_offsets64 (s : List Nat) (l : List NetCDFVariable) (s2 : List Nat)
    (h : read_var_list .CDF02 s = .ok (l, s2)) : ∀ v ∈ l, ∃ n, v.offset = .Pos64 n := by
  unfold read_var_list at h
  cases hex : readExact 4 s with
  | error e => rw [hex] at h; cases h
  | ok p1 =>
    obtain ⟨b1, s1⟩ := p1
    simp only [hex] at h
    cases hex2 : readExact 4 s1 with
    | error e => rw [hex2] at h; cases h
    | ok p2 =>
      obtain ⟨b2, t2⟩ := p2
      simp only [hex2] at h
      split at h
      · cases h
        intro v hv
        cases hv
      · split at h
        · exact readListN_mem (read_variable .CDF02) _
            (fun t a t2 ht => read_variable_offset64 t a t2 ht) (beVal b2) t2 l s2 h
        · cases h

/-! ## The UnknownOffsetVersion error is unreachable -/

theorem readExact_no_uov (n : Nat) (s : List Nat) :
    readExact n s ≠ .error .UnknownOffsetVersion :=
  fun h => absurd (readExact_err h) (by decide)

theorem readByteVal_no_uov (t : List Nat) :
    readByteVal t ≠ .error .UnknownOffsetVersion := by
  intro h
  unfold readByteVal at h
  cases hex : readExact 1 t with
  | error e => rw [hex] at h; cases h; exact absurd (readExact_err hex) (by decide)
  | ok p => obtain ⟨b, t1⟩ := p; rw [hex] at h; cases h

theorem readCharVal_no_uov (t : List Nat) :
    readCharVal t ≠ .error .UnknownOffsetVersion := by
  intro h
  unfold readCharVal at h
  cases hex : readExact 1 t with
  | error e => rw [hex] at h; cases h; exact absurd (readExact_err hex) (by decide)
  | ok p => obtain ⟨b, t1⟩ := p; rw [hex] at h; cases h

theorem readShortVal_no_uov (t : List Nat) :
    readShortVal t ≠ .error .UnknownOffsetVersion := by
  intro h
  unfold readShortVal at h
  cases hex : readExact 2 t with
  | error e => rw [hex] at h; cases h; exact absurd (readExact_err hex) (by decide)
  | ok p => obtain ⟨b, t1⟩ := p; rw [hex] at h; cases h

theorem readIntVal_no_uov (t : List Nat) :
    readIntVal t ≠ .error .UnknownOffsetVersion := by
  intro h
  unfold readIntVal at h
  cases hex : readExact 4 t with
  | error e => rw [hex] at h; cases h; exact absurd (readExact_err hex) (by decide)
  | ok p => obtain ⟨b, t1⟩ := p; rw [hex] at h; cases h

theorem readFloatVal_no_uov (t : List Nat) :
    readFloatVal t ≠ .error .UnknownOffsetVersion := by
  intro h
  unfold readFloatVal at h
  cases hex : readExact 4 t with
  | error e => rw [hex] at h; cases h; exact absurd (readExact_err hex) (by decide)
  | ok p => obtain ⟨b, t1⟩ := p; rw [hex] at h; cases h

theorem readDoubleVal_no_uov (t : List Nat) :
    readDoubleVal t ≠ .error .UnknownOffsetVersion := by
  intro h
  unfold readDoubleVal at h
  cases hex : readExact 8 t with
  | error e => rw [hex] at h; cases h; exact absurd (readExact_err hex) (by decide)
  | ok p => obtain ⟨b, t1⟩ := p; rw [hex] at h; cases h

theorem readDimIdVal_no_uov (t : List Nat) :
    readDimIdVal t ≠ .error .UnknownOffsetVersion := by
  intro h
  unfold readDimIdVal at h
  cases hex : readExact 4 t with
  | error e => rw [hex] at h; cases h; exact absurd (readExact_err hex) (by decide)
  | ok p => obtain ⟨b, t1⟩ := p; rw [hex] at h; cases h

theorem read_name_no_uov (s : List Nat) :
    read_name s ≠ .error .UnknownOffsetVersion := by
  intro h
  unfold read_name at h
  cases hex : readExact 4 s with
  | error e => rw [hex] at h; cases h; exact absurd (readExact_err hex) (by decide)
  | ok p =>
    obtain ⟨b, s1⟩ := p
    simp only [hex] at h
    split at h
    · cases h
    · cases h

theorem read_number_of_elements_no_uov (s : List Nat) :
    read_number_of_elements s ≠ .error .UnknownOffsetVersion := by
  intro h
  unfold read_number_of_elements at h
  cases hex : readExact 4 s with
  | error e => rw [hex] at h; cases h; exact absurd (readExact_err hex) (by decide)
  | ok p => obtain ⟨b, s1⟩ := p; rw [hex] at h; cases h

theorem read_nc_type_no_uov (s : List Nat) :
    read_nc_type s ≠ .error .UnknownOffsetVersion := by
  intro h
  unfold read_nc_type at h
  cases hex : readExact 4 s with
  | error e => rw [hex] at h; cases h; exact absurd (readExact_err hex) (by decide)
  | ok p =>
    obtain ⟨b, s1⟩ := p
    simp only [hex] at h
    split at h
    · cases h
    · split at h
      · cases h
      · split at h
        · cases h
        · split at h
          · cases h
          · split at h
            · cases h
            · split at h
              · cases h
              · cases h

theorem read_numrecs_no_uov (s : List Nat) :
    read_numrecs s ≠ .error .UnknownOffsetVersion := by
  intro h
  unfold read_numrecs at h
  cases hex : readExact 4 s with
  | error e => rw [hex] at h; cases h; exact absurd (readExact_err hex) (by decide)
  | ok p =>
    obtain ⟨b, s1⟩ := p
    simp only [hex] at h
    split at h
    · cases h
    · cases h

theorem read_version_no_uov (s : List Nat) :
    read_version s ≠ .error .UnknownOffsetVersion := by
  intro h
  unfold read_version at h
  cases hex : readExact 4 s with
  | error e => rw [hex] at h; cases h; exact absurd (readExact_err hex) (by decide)
  | ok p =>
    obtain ⟨b, s1⟩ := p
    simp only [hex] at h
    split at h
    · cases h
    · split at h
      · cases h
      · split at h
        · cases h
        · cases h

theorem read_values_no_uov (t : NetCDFType) (n : Nat) (s : List Nat) :
    read_values t n s ≠ .error .UnknownOffsetVersion := by
  intro h
  cases t with
  | NCByte =>
    unfold read_values at h
    cases hl : readListN readByteVal n s with
    | error e =>
      rw [hl] at h
      cases h
      exact readListN_no_err readByteVal _ readByteVal_no_uov n s hl
    | ok p =>
      obtain ⟨vals, s1⟩ := p
      simp only [hl] at h
      cases hex : readExact (n % 4) s1 with
      | error e => rw [hex] at h; cases h; exact absurd (readExact_err hex) (by decide)
      | ok q => obtain ⟨pad, s2⟩ := q; rw [hex] at h; cases h
  | NCChar =>
    unfold read_values at h
    cases hl : readListN readCharVal n s with
    | error e =>
      rw [hl] at h
      cases h
      exact readListN_no_err readCharVal _ readCharVal_no_uov n s hl
    | ok p =>
      obtain ⟨vals, s1⟩ := p
      simp only [hl] at h
      cases hex : readExact (n % 4) s1 with
      | error e => rw [hex] at h; cases h; exact absurd (readExact_err hex) (by decide)
      | ok q => obtain ⟨pad, s2⟩ := q; rw [hex] at h; cases h
  | NCShort =>
    unfold read_values at h
    cases hl : readListN readShortVal n s with
    | error e =>
      rw [hl] at h
      cases h
      exact readListN_no_err readShortVal _ readShortVal_no_uov n s hl
    | ok p =>
      obtain ⟨vals, s1⟩ := p
      simp only [hl] at h
      split at h
      · cases hex : readExact 2 s1 with
        | error e => rw [hex] at h; cases h; exact absurd (readExact_err hex) (by decide)
        | ok q => obtain ⟨pad, s2⟩ := q; rw [hex] at h; cases h
      · cases h
  | NCInt =>
    unfold read_values at h
    exact readListN_no_err readIntVal _ readIntVal_no_uov n s h
  | NCFloat =>
    unfold read_values at h
    exact readListN_no_err readFloatVal _ readFloatVal_no_uov n s h
  | NCDouble =>
    unfold read_values at h
    exact readListN_no_err readDoubleVal _ readDoubleVal_no_uov n s h

theorem read_dimension_no_uov (s : List Nat) :
    read_dimension s ≠ .error .UnknownOffsetVersion := by
  intro h
  unfold read_dimension at h
  cases h1 : read_name s with
  | error e => rw [h1] at h; cases h; exact read_name_no_uov s h1
  | ok p =>
    obtain ⟨name, s1⟩ := p
    simp only [h1] at h
    cases h2 : read_number_of_elements s1 with
    | error e => rw [h2] at h; cases h; exact read_number_of_elements_no_uov s1 h2
    | ok q => obtain ⟨len, s2⟩ := q; rw [h2] at h; cases h

theorem read_attribute_no_uov (s : List Nat) :
    read_attribute s ≠ .error .UnknownOffsetVersion := by
  intro h
  unfold read_attribute at h
  cases h1 : read_name s with
  | error e => rw [h1] at h; cases h; exact read_name_no_uov s h1
  | ok p1 =>
    obtain ⟨name, s1⟩ := p1
    simp only [h1] at h
    cases h2 : read_nc_type s1 with
    | error e => rw [h2] at h; cases h; exact read_nc_type_no_uov s1 h2
    | ok p2 =>
      obtain ⟨ty, s2⟩ := p2
      simp only [h2] at h
      cases h3 : read_number_of_elements s2 with
      | error e => rw [h3] at h; cases h; exact read_number_of_elements_no_uov s2 h3
      | ok p3 =>
        obtain ⟨nvals, s3⟩ := p3
        simp only [h3] at h
        cases h4 : read_values ty nvals s3 with
        | error e => rw [h4] at h; cases h; exact read_values_no_uov ty nvals s3 h4
        | ok p4 => obtain ⟨vals, s4⟩ := p4; rw [h4] at h; cases h

theorem read_att_list_no_uov (s : List Nat) :
    read_att_list s ≠ .error .UnknownOffsetVersion := by
  intro h
  unfold read_att_list at h
  cases hex : readExact 4 s with
  | error e => rw [hex] at h; cases h; exact absurd (readExact_err hex) (by decide)
  | ok p1 =>
    obtain ⟨b1, s1⟩ := p1
    simp only [hex] at h
    cases hex2 : readExact 4 s1 with
    | error e => rw [hex2] at h; cases h; exact absurd (readExact_err hex2) (by decide)
    | ok p2 =>
      obtain ⟨b2, s2⟩ := p2
      simp only [hex2] at h
      split at h
      · cases h
      · split at h
        · exact readListN_no_err read_attribute _ read_attribute_no_uov (beVal b2) s2 h
        · cases h

theorem read_dim_list_no_uov (s : List Nat) :
    read_dim_list s ≠ .error .UnknownOffsetVersion := by
  intro h
  unfold read_dim_list at h
  cases hex : readExact 4 s with
  | error e => rw [hex] at h; cases h; exact absurd (readExact_err hex) (by decide)
  | ok p1 =>
    obtain ⟨b1, s1⟩ := p1
    simp only [hex] at h
    cases hex2 : readExact 4 s1 with
    | error e => rw [hex2] at h; cases h; exact absurd (readExact_err hex2) (by decide)
    | ok p2 =>
      obtain ⟨b2, s2⟩ := p2
      simp only [hex2] at h
      split at h
      · cases h
      · split at h
        · exact readListN_no_err read_dimension _ read_dimension_no_uov (beVal b2) s2 h
        · cases h

theorem read_dimension_ids_no_uov (s : List Nat) :
    read_dimension_ids s ≠ .error .UnknownOffsetVersion := by
  intro h
  unfold read_dimension_ids at h
  cases h1 : read_number_of_elements s with
  | error e => rw [h1] at h; cases h; exact read_number_of_elements_no_uov s h1
  | ok p =>
    obtain ⟨nelems, s1⟩ := p
    simp only [h1] at h
    exact readListN_no_err readDimIdVal _ readDimIdVal_no_uov nelems s1 h

theorem read_offset_no_uov (ver : NetCDFVersion) (s : List Nat) (hv : ver ≠ .HDF5) :
    read_offset ver s ≠ .error .UnknownOffsetVersion := by
  intro h
  cases ver with
  | CDF01 =>
    simp only [read_offset] at h
    cases hex : readExact 4 s with
    | error e => rw [hex] at h; cases h; exact absurd (readExact_err hex) (by decide)
    | ok p => obtain ⟨b, s1⟩ := p; rw [hex] at h; cases h
  | CDF02 =>
    simp only [read_offset] at h
    cases hex : readExact 8 s with
    | error e => rw [hex] at h; cases h; exact absurd (readExact_err hex) (by decide)
    | ok p => obtain ⟨b, s1⟩ := p; rw [hex] at h; cases h
  | HDF5 => exact hv rfl

theorem read_variable_no_uov (ver : NetCDFVersion) (s : List Nat) (hv : ver ≠ .HDF5) :
    read_variable ver s ≠ .error .UnknownOffsetVersion := by
  intro h
  unfold read_variable at h
  cases h1 : read_name s with
  | error e => rw [h1] at h; cases h; exact read_name_no_uov s h1
  | ok p1 =>
    obtain ⟨name, s1⟩ := p1
    simp only [h1] at h
    cases h2 : read_dimension_ids s1 with
    | error e => rw [h2] at h; cases h; exact read_dimension_ids_no_uov s1 h2
    | ok p2 =>
      obtain ⟨dimid, s2⟩ := p2
      simp only [h2] at h
      cases h3 : read_att_list s2 with
      | error e => rw [h3] at h; cases h; exact read_att_list_no_uov s2 h3
      | ok p3 =>
        obtain ⟨atts, s3⟩ := p3
        simp only [h3] at h
        cases h4 : read_nc_type s3 with
        | error e => rw [h4] at h; cases h; exact read_nc_type_no_uov s3 h4
        | ok p4 =>
          obtain ⟨ty, s4⟩ := p4
          simp only [h4] at h
          cases h5 : read_number_of_elements s4 with
          | error e => rw [h5] at h; cases h; exact read_number_of_elements_no_uov s4 h5
          | ok p5 =>
            obtain ⟨vs, s5⟩ := p5
            simp only [h5] at h
            cases h6 : read_offset ver s5 with
            | error e => rw [h6] at h; cases h; exact read_offset_no_uov ver s5 hv h6
            | ok p6 => obtain ⟨off, s6⟩ := p6; rw [h6] at h; cases h

theorem read_var_list_no_uov (ver : NetCDFVersion) (s : List Nat) (hv : ver ≠ .HDF5) :
    read_var_list ver s ≠ .error .UnknownOffsetVersion := by
  intro h
  unfold read_var_list at h
  cases hex : readExact 4 s with
  | error e => rw [hex] at h; cases h; exact absurd (readExact_err hex) (by decide)
  | ok p1 =>
    obtain ⟨b1, s1⟩ := p1
    simp only [hex] at h
    cases hex2 : readExact 4 s1 with
    | error e => rw [hex2] at h; cases h; exact absurd (readExact_err hex2) (by decide)
    | ok p2 =>
      obtain ⟨b2, s2⟩ := p2
      simp only [hex2] at h
      split at h
      · cases h
      · split at h
        · exact readListN_no_err (read_variable ver) _
            (fun t => read_variable_no_uov ver t hv) (beVal b2) s2 h
        · cases h

/-! ## Header-level facts -/

theorem read_header_ok_shape (s : List Nat) (hd : NetCDFHeader) (s1 : List Nat)
    (h : read_header s = .ok (hd, s1)) :
    (hd.version = .CDF01 ∨ hd.version = .CDF02) ∧
    (∃ s4 s5, read_var_list hd.version s4 = .ok (hd.var_list, s5)) := by
  unfold read_header at h
  cases hv : read_version s with
  | error e => rw [hv] at h; cases h
  | ok p =>
    obtain ⟨ver, t1⟩ := p
    simp only [hv] at h
    cases ver with
    | HDF5 => cases h
    | CDF01 =>
      cases hn : read_numrecs t1 with
      | error e => rw [hn] at h; cases h
      | ok p1 =>
        obtain ⟨nr, t2⟩ := p1
        simp only [hn] at h
        cases hdl : read_dim_list t2 with
        | error e => rw [hdl] at h; cases h
        | ok p2 =>
          obtain ⟨dl, t3⟩ := p2
          simp only [hdl] at h
          cases hal : read_att_list t3 with
          | error e => rw [hal] at h; cases h
          | ok p3 =>
            obtain ⟨al, t4⟩ := p3
            simp only [hal] at h
            cases hvl : read_var_list .CDF01 t4 with
            | error e => rw [hvl] at h; cases h
            | ok p4 =>
              obtain ⟨vl, t5⟩ := p4
              simp only [hvl] at h
              cases h
              exact ⟨Or.inl rfl, t4, _, hvl⟩
    | CDF02 =>
      cases hn : read_numrecs t1 with
      | error e => rw [hn] at h; cases h
      | ok p1 =>
        obtain ⟨nr, t2⟩ := p1
        simp only [hn] at h
        cases hdl : read_dim_list t2 with
        | error e => rw [hdl] at h; cases h
        | ok p2 =>
          obtain ⟨dl, t3⟩ := p2
          simp only [hdl] at h
          cases hal : read_att_list t3 with
          | error e => rw [hal] at h; cases h
          | ok p3 =>
            obtain ⟨al, t4⟩ := p3
            simp only [hal] at h
            cases hvl : read_var_list .CDF02 t4 with
            | error e => rw [hvl] at h; cases h
            | ok p4 =>
              obtain ⟨vl, t5⟩ := p4
              simp only [hvl] at h
              cases h
              exact ⟨Or.inr rfl, t4, _, hvl⟩

theorem read_header_no_uov (s : List Nat) :
    read_header s ≠ .error .UnknownOffsetVersion := by
  intro h
  unfold read_header at h
  cases hv : read_version s with
  | error e => rw [hv] at h; cases h; exact read_version_no_uov s hv
  | ok p =>
    obtain ⟨ver, t1⟩ := p
    simp only [hv] at h
    cases ver with
    | HDF5 => cases h
    | CDF01 =>
      cases hn : read_numrecs t1 with
      | error e => rw [hn] at h; cases h; exact read_numrecs_no_uov t1 hn
      | ok p1 =>
        obtain ⟨nr, t2⟩ := p1
        simp only [hn] at h
        cases hdl : read_dim_list t2 with
        | error e => rw [hdl] at h; cases h; exact read_dim_list_no_uov t2 hdl
        | ok p2 =>
          obtain ⟨dl, t3⟩ := p2
          simp only [hdl] at h
          cases hal : read_att_list t3 with
          | error e => rw [hal] at h; cases h; exact read_att_list_no_uov t3 hal
          | ok p3 =>
            obtain ⟨al, t4⟩ := p3
            simp only [hal] at h
            cases hvl : read_var_list .CDF01 t4 with
            | error e =>
              rw [hvl] at h; cases h
              exact read_var_list_no_uov .CDF01 t4 (by decide) hvl
            | ok p4 => obtain ⟨vl, t5⟩ := p4; rw [hvl] at h; cases h
    | CDF02 =>
      cases hn : read_numrecs t1 with
      | error e => rw [hn] at h; cases h; exact read_numrecs_no_uov t1 hn
      | ok p1 =>
        obtain ⟨nr, t2⟩ := p1
        simp only [hn] at h
        cases hdl : read_dim_list t2 with
        | error e => rw [hdl] at h; cases h; exact read_dim_list_no_uov t2 hdl
        | ok p2 =>
          obtain ⟨dl, t3⟩ := p2
          simp only [hdl] at h
          cases hal : read_att_list t3 with
          | error e => rw [hal] at h; cases h; exact read_att_list_no_uov t3 hal
          | ok p3 =>
            obtain ⟨al, t4⟩ := p3
            simp only [hal] at h
            cases hvl : read_var_list .CDF02 t4 with
            | error e =>
              rw [hvl] at h; cases h
              exact read_var_list_no_uov .CDF02 t4 (by decide) hvl
            | ok p4 => obtain ⟨vl, t5⟩ := p4; rw [hvl] at h; cases h

theorem read_data_eq (hd : NetCDFHeader) (s : List Nat) :
    read_data hd s = .ok (⟨[], []⟩, s) := rfl

theorem load_reader_no_uov (s : List Nat) :
    load_reader s ≠ .error .UnknownOffsetVersion := by
  intro h
  unfold load_reader at h
  cases hh : read_header s with
  | error e => rw [hh] at h; cases h; exact read_header_no_uov s hh
  | ok p =>
    obtain ⟨hd, s1⟩ := p
    simp only [hh] at h
    rw [read_data_eq hd s1] at h
    cases h

theorem load_reader_empty_data (s : List Nat) (r : NetCDF)
    (h : load_reader s = .ok r) : r.data.non_recs = [] ∧ r.data.recs = [] := by
  unfold load_reader at h
  cases hh : read_header s with
  | error e => rw [hh] at h; cases h
  | ok p =>
    obtain ⟨hd, s1⟩ := p
    simp only [hh] at h
    rw [read_data_eq hd s1] at h
    cases h
    exact ⟨rfl, rfl⟩

/-! ## Version dispatch helpers -/

theorem read_version_v1 (rest : List Nat) :
    read_version (VERSION1 ++ rest) = .ok (.CDF01, rest) := by
  unfold read_version
  rw [readExact_of_append 4 VERSION1 rest rfl]
  rfl

theorem read_version_v2 (rest : List Nat) :
    read_version (VERSION2 ++ rest) = .ok (.CDF02, rest) := by
  unfold read_version
  rw [readExact_of_append 4 VERSION2 rest rfl]
  rfl

theorem read_version_v4 (rest : List Nat) :
    read_version (VERSION4 ++ rest) = .ok (.HDF5, rest) := by
  unfold read_version
  rw [readExact_of_append 4 VERSION4 rest rfl]
  rfl

theorem read_numrecs_zeros (rest : List Nat) :
    read_numrecs ([0, 0, 0, 0] ++ rest) = .ok (.Normal 0, rest) := by
  unfold read_numrecs
  rw [readExact_of_append 4 [0, 0, 0, 0] rest rfl]
  rfl

theorem read_header_hdf5 (rest : List Nat) :
    read_header (VERSION4 ++ rest) = .error .HDF5NotSupportetYet := by
  unfold read_header
  rw [read_version_v4 rest]

/-! ## Claim theorems -/

/-- C1: the code evaluated at a failing input.  A Byte value run with
nvals = 1 reads the 1 value byte and then padding = 1 % 4 = 1 extra
byte, 2 bytes in total, which is not a multiple of 4 even though the
source holds enough bytes to pad to the next multiple of 4: read_values
computes the padding as the remainder of the payload size instead of
its complement, so Byte and Char runs with nvals % 4 equal to 1 or 3
break the alignment the claim states. -/
theorem c1_byte_run_breaks_alignment :
    read_values NetCDFType.NCByte 1 [7, 0, 0, 0] = .ok ([NetCDFValue.Byte 7], [0, 0]) ∧
    ¬ (4 ∣ (([7, 0, 0, 0] : List Nat).length - ([0, 0] : List Nat).length)) :=
  ⟨rfl, by decide⟩

/-- C2: the code evaluated at a failing input.  oneVarFile declares one
non-record NCByte variable with vsize 4 and is followed by 4 data
bytes, yet load_reader returns a data section with non_recs = [] and
leaves the 4 data bytes unread, because read_non_records
unconditionally returns the empty vector instead of reading one
vsize-byte value run per non-record variable. -/
theorem c2_data_section_is_stubbed :
    load_reader oneVarFile =
      .ok ⟨⟨.CDF01, .Normal 0, [], [],
            [⟨[120], [], [], .NCByte, 4, .Pos32 40⟩]⟩, ⟨[], []⟩⟩ :=
  rfl

/-- C3: the code evaluated at failing inputs.  read_name with declared
length 5 over a source holding only 2 name bytes returns the silently
shortened name instead of a decode error (take + read_to_end delivers
whatever is available), and read_name with length 1 leaves the 3
padding bytes unconsumed instead of reading up to the 4-byte
boundary. -/
theorem c3_read_name_truncates_and_skips_padding :
    read_name [0, 0, 0, 5, 97, 98] = .ok ([97, 98], []) ∧
    read_name [0, 0, 0, 1, 97, 0, 0, 0] = .ok ([97], [0, 0, 0]) :=
  ⟨rfl, rfl⟩

/-- C4 counterexample: a var_list whose first tag is 00 00 00 99
fails with the attribute-list tag error, the very same error value an
att_list with those tags produces, so the var_list mismatch error does
not identify which list failed. -/
theorem c4_var_list_error_misidentified :
    read_var_list NetCDFVersion.CDF01 [0, 0, 0, 0x99, 0, 0, 0, 0] =
      .error (.AttrListTag ([0, 0, 0, 0x99], [0, 0, 0, 0])) ∧
    read_att_list [0, 0, 0, 0x99, 0, 0, 0, 0] =
      .error (.AttrListTag ([0, 0, 0, 0x99], [0, 0, 0, 0])) :=
  ⟨rfl, rfl⟩

/-- C4 amended: dim_list and att_list tag mismatches fail with their
own list-identifying errors carrying both raw tags; a var_list tag
mismatch also fails carrying both raw tags but reuses the
attribute-list error; and a dim_list with first tag 00 00 00 99 after
a valid CDF-1 magic and numrecs makes the whole header fail with
DimListTag carrying both raw tags, so no Header is produced. -/
theorem c4_list_tag_mismatch_behaviour :
    (∀ t1 t2 rest, t1.length = 4 → t2.length = 4 → ¬(t1 = ZERO ∧ t2 = ZERO) →
        t1 ≠ NC_DIMENSION →
        read_dim_list (t1 ++ (t2 ++ rest)) = .error (.DimListTag (t1, t2))) ∧
    (∀ t1 t2 rest, t1.length = 4 → t2.length = 4 → ¬(t1 = ZERO ∧ t2 = ZERO) →
        t1 ≠ NC_ATTRIBUTE →
        read_att_list (t1 ++ (t2 ++ rest)) = .error (.AttrListTag (t1, t2))) ∧
    (∀ ver t1 t2 rest, t1.length = 4 → t2.length = 4 → ¬(t1 = ZERO ∧ t2 = ZERO) →
        t1 ≠ NC_VARIABLE →
        read_var_list ver (t1 ++ (t2 ++ rest)) = .error (.AttrListTag (t1, t2))) ∧
    (∀ rest,
        read_header (VERSION1 ++ ([0, 0, 0, 0] ++ ([0, 0, 0, 0x99] ++ ([0, 0, 0, 0] ++ rest)))) =
          .error (.DimListTag ([0, 0, 0, 0x99], [0, 0, 0, 0]))) := by
  refine ⟨read_dim_list_mismatch, read_att_list_mismatch, read_var_list_mismatch, ?_⟩
  intro rest
  have hd : read_dim_list ([0, 0, 0, 0x99] ++ ([0, 0, 0, 0] ++ rest)) =
      .error (.DimListTag ([0, 0, 0, 0x99], [0, 0, 0, 0])) :=
    read_dim_list_mismatch _ _ _ rfl rfl (fun hc => absurd hc.1 (by decide)) (by decide)
  simp only [read_header, read_version_v1, read_numrecs_zeros, hd]

/-- C4 witness: the amended theorem applied at concrete inputs. -/
theorem c4_tag_mismatch_witness :
    read_dim_list ([0, 0, 0, 0x99] ++ ([0, 0, 0, 0] ++ [])) =
      .error (.DimListTag ([0, 0, 0, 0x99], [0, 0, 0, 0])) ∧
    read_var_list .CDF01 ([0, 0, 0, 0x99] ++ ([0, 0, 0, 0] ++ [])) =
      .error (.AttrListTag ([0, 0, 0, 0x99], [0, 0, 0, 0])) :=
  ⟨c4_list_tag_mismatch_behaviour.1 [0, 0, 0, 0x99] [0, 0, 0, 0] [] rfl rfl
      (fun hc => absurd hc.1 (by decide)) (by decide),
   c4_list_tag_mismatch_behaviour.2.2.1 .CDF01 [0, 0, 0, 0x99] [0, 0, 0, 0] [] rfl rfl
      (fun hc => absurd hc.1 (by decide)) (by decide)⟩

/-- C5: every successfully decoded list has exactly the number of
elements its second tag declares (big-endian), and two zero tags give
the empty list with the remaining source untouched. -/
theorem c5_list_lengths :
    (∀ cnt rest l s2, cnt.length = 4 →
        read_dim_list (NC_DIMENSION ++ (cnt ++ rest)) = .ok (l, s2) →
        l.length = beVal cnt) ∧
    (∀ rest, read_dim_list (ZERO ++ (ZERO ++ rest)) = .ok ([], rest)) ∧
    (∀ cnt rest l s2, cnt.length = 4 →
        read_att_list (NC_ATTRIBUTE ++ (cnt ++ rest)) = .ok (l, s2) →
        l.length = beVal cnt) ∧
    (∀ rest, read_att_list (ZERO ++ (ZERO ++ rest)) = .ok ([], rest)) ∧
    (∀ ver cnt rest l s2, cnt.length = 4 →
        read_var_list ver (NC_VARIABLE ++ (cnt ++ rest)) = .ok (l, s2) →
        l.length = beVal cnt) ∧
    (∀ ver rest, read_var_list ver (ZERO ++ (ZERO ++ rest)) = .ok ([], rest)) :=
  ⟨read_dim_list_count, read_dim_list_empty, read_att_list_count, read_att_list_empty,
   read_var_list_count, read_var_list_empty⟩

/-- C5 witness: a dimension list declaring one element decodes to a
one-element list, and the theorem recovers that length from the
declared count. -/
theorem c5_list_lengths_witness :
    read_dim_list (NC_DIMENSION ++ ([0, 0, 0, 1] ++ [0, 0, 0, 1, 120, 0, 0, 0, 5])) =
      .ok ([⟨[120], 5⟩], []) ∧
    ([(⟨[120], 5⟩ : NetCDFDimension)]).length = beVal [0, 0, 0, 1] ∧
    read_dim_list (ZERO ++ (ZERO ++ [7])) = .ok ([], [7]) :=
  ⟨rfl,
   c5_list_lengths.1 [0, 0, 0, 1] [0, 0, 0, 1, 120, 0, 0, 0, 5] [⟨[120], 5⟩] [] rfl rfl,
   c5_list_lengths.2.1 [7]⟩

/-- C6: the version decoder accepts exactly the two supported magics,
the HDF5-family magic aborts the whole header with the distinct
unsupported-variant error (a different constructor from UnknownVersion),
and any other first four bytes fail with UnknownVersion carrying those
raw bytes. -/
theorem c6_version_dispatch :
    (∀ rest, read_version (VERSION1 ++ rest) = .ok (.CDF01, rest)) ∧
    (∀ rest, read_version (VERSION2 ++ rest) = .ok (.CDF02, rest)) ∧
    (∀ rest, read_header (VERSION4 ++ rest) = .error .HDF5NotSupportetYet) ∧
    (∀ bs, NetCDFError.HDF5NotSupportetYet ≠ NetCDFError.UnknownVersion bs) ∧
    (∀ b rest, b.length = 4 → b ≠ VERSION1 → b ≠ VERSION2 → b ≠ VERSION4 →
        read_version (b ++ rest) = .error (.UnknownVersion b)) := by
  refine ⟨read_version_v1, read_version_v2, read_header_hdf5, ?_, ?_⟩
  · intro bs h
    cases h
  · intro b rest hb h1 h2 h3
    unfold read_version
    rw [readExact_of_append 4 b rest hb]
    simp [h1, h2, h3]

/-- C6 witness: the theorem applied at concrete inputs. -/
theorem c6_version_dispatch_witness :
    read_version ([1, 2, 3, 4] ++ []) = .error (.UnknownVersion [1, 2, 3, 4]) ∧
    read_version (VERSION1 ++ []) = .ok (.CDF01, []) :=
  ⟨c6_version_dispatch.2.2.2.2 [1, 2, 3, 4] [] rfl (by decide) (by decide) (by decide),
   c6_version_dispatch.1 []⟩

/-- C7: under CDF-1 an offset is one 4-byte big-endian value decoded as
Pos32, under CDF-2 one 8-byte big-endian value decoded as Pos64; every
variable of a var_list decoded under one version carries offsets of
that single width, and a successfully decoded header gives every
variable the width of its one resolved version, so the two widths are
never mixed within one file. -/
theorem c7_offset_widths :
    (∀ p rest, p.length = 4 →
        read_offset .CDF01 (p ++ rest) = .ok (.Pos32 (beVal p), rest)) ∧
    (∀ p rest, p.length = 8 →
        read_offset .CDF02 (p ++ rest) = .ok (.Pos64 (beVal p), rest)) ∧
    (∀ s l s2, read_var_list .CDF01 s = .ok (l, s2) → ∀ v ∈ l, ∃ n, v.offset = .Pos32 n) ∧
    (∀ s l s2, read_var_list .CDF02 s = .ok (l, s2) → ∀ v ∈ l, ∃ n, v.offset = .Pos64 n) ∧
    (∀ s hd s1, read_header s = .ok (hd, s1) →
        (hd.version = .CDF01 → ∀ v ∈ hd.var_list, ∃ n, v.offset = .Pos32 n) ∧
        (hd.version = .CDF02 → ∀ v ∈ hd.var_list, ∃ n, v.offset = .Pos64 n)) := by
  refine ⟨?_, ?_, read_var_list_offsets32, read_var_list_offsets64, ?_⟩
  · intro p rest hp
    simp only [read_offset]
    rw [readExact_of_append 4 p rest hp]
  · intro p rest hp
    simp only [read_offset]
    rw [readExact_of_append 8 p rest hp]
  · intro s hd s1 h
    obtain ⟨hor, s4, s5, hvl⟩ := read_header_ok_shape s hd s1 h
    constructor
    · intro h01
      rw [h01] at hvl
      exact read_var_list_offsets32 s4 hd.var_list s5 hvl
    · intro h02
      rw [h02] at hvl
      exact read_var_list_offsets64 s4 hd.var_list s5 hvl

/-- C7 witness: the theorem applied at concrete inputs, one per
width, plus a concrete one-variable var_list under CDF-1. -/
theorem c7_offset_widths_witness :
    read_offset .CDF01 ([0, 0, 0, 9] ++ []) = .ok (.Pos32 (beVal [0, 0, 0, 9]), []) ∧
    read_offset .CDF02 ([0, 0, 0, 0, 0, 0, 0, 9] ++ []) =
      .ok (.Pos64 (beVal [0, 0, 0, 0, 0, 0, 0, 9]), []) ∧
    (∃ n, (⟨[120], [], [], .NCByte, 4, .Pos32 40⟩ : NetCDFVariable).offset = .Pos32 n) :=
  ⟨c7_offset_widths.1 [0, 0, 0, 9] [] rfl,
   c7_offset_widths.2.1 [0, 0, 0, 0, 0, 0, 0, 9] [] rfl,
   c7_offset_widths.2.2.1
     [0, 0, 0, 0x0b, 0, 0, 0, 1, 0, 0, 0, 1, 120, 0, 0, 0, 0, 0, 0, 0, 0,
      0, 0, 0, 0, 0, 0, 0, 1, 0, 0, 0, 4, 0, 0, 0, 40]
     [⟨[120], [], [], .NCByte, 4, .Pos32 40⟩] [] (by rfl) _ (by simp)⟩

/-- C8: the defensive unresolved-offset-version branch is unreachable
from load_reader: a successfully decoded header never carries the HDF5
version, read_offset never produces UnknownOffsetVersion once the
version is resolved to CDF-1 or CDF-2, and no input makes load_reader
fail with UnknownOffsetVersion. -/
theorem c8_unknown_offset_version_unreachable :
    (∀ s hd s1, read_header s = .ok (hd, s1) → hd.version ≠ .HDF5) ∧
    (∀ ver s, ver ≠ .HDF5 → read_offset ver s ≠ .error .UnknownOffsetVersion) ∧
    (∀ s, load_reader s ≠ .error .UnknownOffsetVersion) := by
  refine ⟨?_, read_offset_no_uov, load_reader_no_uov⟩
  intro s hd s1 h hH5
  obtain ⟨hor, -⟩ := read_header_ok_shape s hd s1 h
  rcases hor with h1 | h1 <;> rw [h1] at hH5 <;> cases hH5

/-- C8 witness: the theorem applied at concrete inputs. -/
theorem c8_unreachable_witness :
    load_reader [] ≠ .error .UnknownOffsetVersion ∧
    read_offset .CDF01 [] ≠ .error .UnknownOffsetVersion :=
  ⟨c8_unknown_offset_version_unreachable.2.2 [],
   c8_unknown_offset_version_unreachable.2.1 .CDF01 [] (by decide)⟩

/-- C9: a successfully decoded name is always valid UTF-8; a name whose
bytes fail the UTF-8 check makes read_name fail with the text-decode
error carrying exactly the offending bytes; and a successful read_name
returns exactly the raw bytes taken from the source, never a
substituted or lossy variant. -/
theorem c9_names_are_utf8 :
    (∀ s name s2, read_name s = .ok (name, s2) → validUtf8 name = true) ∧
    (∀ p rest, p.length = 4 → validUtf8 (rest.take (beVal p)) = false →
        read_name (p ++ rest) = .error (.FromUtf8 (rest.take (beVal p)))) ∧
    (∀ p rest name s2, p.length = 4 → read_name (p ++ rest) = .ok (name, s2) →
        name = rest.take (beVal p) ∧ s2 = rest.drop (beVal p)) := by
  refine ⟨?_, ?_, ?_⟩
  · intro s name s2 h
    unfold read_name at h
    cases hex : readExact 4 s with
    | error e => rw [hex] at h; cases h
    | ok p =>
      obtain ⟨b, s1⟩ := p
      simp only [hex] at h
      split at h
      · rename_i hval
        cases h
        exact hval
      · cases h
  · intro p rest hp hval
    unfold read_name
    rw [readExact_of_append 4 p rest hp]
    simp [hval]
  · intro p rest name s2 hp h
    unfold read_name at h
    simp only [readExact_of_append 4 p rest hp] at h
    split at h
    · cases h
      exact ⟨rfl, rfl⟩
    · cases h

/-- C9 witness: the theorem applied at concrete inputs: a 0xFF name
byte is rejected with the offending bytes, and a decoded name is
valid UTF-8. -/
theorem c9_names_are_utf8_witness :
    read_name ([0, 0, 0, 1] ++ [0xff]) = .error (.FromUtf8 [0xff]) ∧
    validUtf8 [97] = true :=
  ⟨c9_names_are_utf8.2.1 [0, 0, 0, 1] [0xff] rfl (by decide),
   c9_names_are_utf8.1 [0, 0, 0, 1, 97] [97] [] (by rfl)⟩

/-- C10: whatever the header declares, a successful load_reader always
returns an empty data section: read_non_records and read_records
unconditionally return empty vectors. -/
theorem c10_decoded_data_is_empty :
    ∀ s r, load_reader s = .ok r → r.data.non_recs = [] ∧ r.data.recs = [] :=
  load_reader_empty_data

/-- C10 witness: the theorem applied to the concrete empty file. -/
theorem c10_decoded_data_is_empty_witness :
    load_reader emptyFile = .ok ⟨⟨.CDF01, .Normal 0, [], [], []⟩, ⟨[], []⟩⟩ ∧
    (⟨⟨.CDF01, .Normal 0, [], [], []⟩, ⟨[], []⟩⟩ : NetCDF).data.non_recs = [] ∧
    (⟨⟨.CDF01, .Normal 0, [], [], []⟩, ⟨[], []⟩⟩ : NetCDF).data.recs = [] :=
  ⟨rfl, c10_decoded_data_is_empty emptyFile _ rfl⟩
